import Mathlib

/-!
Verification of the image-generation task engine of a prompt-manager
desktop application.  The engine lives in the renderer hook `useImageGen`
(source files `part_006`, with variant revisions in `part_007`), with the
task list UI in `TaskList`/`TaskItem` (`part_003`) and the shared types in
`renderer/types/index.ts`.

The embedding below translates the hook's pure decision logic into Lean:

* JSON response bodies are records of the exact optional fields the code
  reads; JavaScript truthiness of a string field (`undefined` and `""` are
  falsy) is modelled by `truthyS`, and `a || b` by `jsOrO` / `jsOrStr`.
* The HTTP layer is an oracle argument (`FetchResult` / `GenFetch`):
  every call the code would make consumes the oracle's answer, and the
  requests the code issues are returned explicitly so that claims about
  "no network call" become statements about the returned request list.
* Timestamps are epoch milliseconds (`Int`); `new Date(x).getTime()` on a
  stored creation time is the stored number itself.
* React state updates (`setTasks`) become explicit list-to-list functions,
  and `storeSet` persistence calls are collected in a `writes` list.
-/

/-! ## The embedded data model and operations -/

/-- `ImageGenTaskStatus` from `renderer/types/index.ts`:
`'pending' | 'processing' | 'completed' | 'failed'`. -/
inductive TaskStatus where
  | pending
  | processing
  | completed
  | failed
deriving Repr, DecidableEq

/-- `ImageGenTask` from `renderer/types/index.ts`.  Optional string fields
(`resultImageUrl?`, `resultImageBase64?`, `error?`) are `Option String`;
the ISO timestamp strings are modelled by their epoch-millisecond value. -/
structure ImageGenTask where
  id : String
  taskId : String
  prompt : String
  status : TaskStatus
  resultImageUrl : Option String := none
  resultImageBase64 : Option String := none
  error : Option String := none
  createdAt : Int
  updatedAt : Int
  modelName : String
deriving Repr, DecidableEq

/-- `ImageGenApiConfig` from `renderer/types/index.ts`. -/
structure ImageGenApiConfig where
  apiUrl : String
  apiKey : String
  modelName : String
  enabled : Bool := false
  customHeaders : List (String × String) := []
deriving Repr, DecidableEq

/-- JavaScript truthiness of an optional string: `undefined` and `""` are
falsy, every other string is truthy. -/
def truthyS : Option String → Bool
  | some s => s ≠ ""
  | none => false

/-- JavaScript truthiness of `arr && arr.length > 0` for an optional
array field. -/
def lenPos {α : Type} : Option (List α) → Bool
  | some l => decide (0 < l.length)
  | none => false

/-- JavaScript `a || b` on two optional strings (the result is `b`,
whatever it is, when `a` is falsy). -/
def jsOrO (a b : Option String) : Option String :=
  if truthyS a then a else b

/-- JavaScript `a || b` where the fallback `b` is a plain string. -/
def jsOrStr (a : Option String) (b : String) : String :=
  match a with
  | some s => if s = "" then b else s
  | none => b

/-- ASCII lowercase of one character, as `String.prototype.toLowerCase`
acts on the ASCII vocabulary words the normalizer compares against. -/
def lowerChar (c : Char) : Char :=
  if 'A' ≤ c ∧ c ≤ 'Z' then Char.ofNat (c.toNat + 32) else c

/-- ASCII lowercase of a string (executable model of `toLowerCase`). -/
def lowerStr (s : String) : String :=
  String.mk (s.data.map lowerChar)

/-- One entry of the `data` array of a poll / generation response body
(`{url?, b64_json?, task_id?}`). -/
structure DataItem where
  url : Option String := none
  b64_json : Option String := none
  task_id : Option String := none
deriving Repr, DecidableEq

/-- One entry of a nested `output.results` list (`{url?, orig_url?}`). -/
structure ResultItem where
  url : Option String := none
  orig_url : Option String := none
deriving Repr, DecidableEq

/-- The nested `output` object of a poll response body. -/
structure OutputField where
  image_url : Option String := none
  results : Option (List ResultItem) := none
  task_status : Option String := none
  message : Option String := none
deriving Repr, DecidableEq

/-- The nested `result` object of a poll response body. -/
structure ResultField where
  image_url : Option String := none
deriving Repr, DecidableEq

/-- The nested `error` object of a poll response body. -/
structure ErrorField where
  message : Option String := none
deriving Repr, DecidableEq

/-- A poll response body, restricted to exactly the fields
`pollTaskStatus` reads. -/
structure PollData where
  status : Option String := none
  task_status : Option String := none
  output_images : Option (List String) := none
  data : Option (List DataItem) := none
  output : Option OutputField := none
  result : Option ResultField := none
  url : Option String := none
  error : Option ErrorField := none
  message : Option String := none
deriving Repr, DecidableEq

/-- The normalized tuple `pollTaskStatus` derives from a response body:
`(newStatus, resultUrl, resultBase64, error)`. -/
structure NormUpdate where
  newStatus : TaskStatus
  resultUrl : Option String := none
  resultBase64 : Option String := none
  error : Option String := none
deriving Repr, DecidableEq

/-- `const status = data.status || data.task_status || ''` from
`pollTaskStatus`. -/
def topStatus (d : PollData) : String :=
  jsOrStr d.status (jsOrStr d.task_status "")

/-- Generic failure message `'生成失败'` used by the poll normalizer. -/
def genFailMsg : String := "生成失败"

/-- The poll-response normalizer of `pollTaskStatus` (part_006 lines
226–276; identical in the part_007 revisions): maps a response body to the
normalized `(status, url, base64, error)` tuple, starting from the default
`newStatus = 'processing'`. -/
def normalizePollData (d : PollData) : NormUpdate :=
  let statusLower := lowerStr (topStatus d)
  if statusLower = "completed" ∨ statusLower = "success" ∨
      statusLower = "succeeded" ∨ statusLower = "succeed" then
    -- terminal success: extract the result image, first matching shape wins
    if lenPos d.output_images then
      { newStatus := .completed
        resultUrl := (d.output_images.getD []).head? }
    else if lenPos d.data then
      let first := ((d.data.getD []).head?).getD {}
      { newStatus := .completed
        resultUrl := first.url
        resultBase64 :=
          if truthyS first.b64_json then
            some ("data:image/png;base64," ++ first.b64_json.getD "")
          else none }
    else if truthyS (d.output.bind (·.image_url)) then
      { newStatus := .completed
        resultUrl := d.output.bind (·.image_url) }
    else if lenPos (d.output.bind (·.results)) then
      let rs := (d.output.bind (·.results)).getD []
      { newStatus := .completed
        resultUrl := jsOrO (rs.head?.bind (·.url)) (rs.head?.bind (·.orig_url)) }
    else if truthyS (d.result.bind (·.image_url)) then
      { newStatus := .completed
        resultUrl := d.result.bind (·.image_url) }
    else if truthyS d.url then
      { newStatus := .completed, resultUrl := d.url }
    else
      { newStatus := .completed }
  else if statusLower = "failed" ∨ statusLower = "error" then
    { newStatus := .failed
      error := some (jsOrStr (d.error.bind (·.message)) (jsOrStr d.message genFailMsg)) }
  else if statusLower = "pending" ∨ statusLower = "processing" ∨
      statusLower = "running" then
    { newStatus := .processing }
  else
    -- unknown top-level status: fall back to nested output.task_status
    let nestedStatus := lowerStr (jsOrStr (d.output.bind (·.task_status)) "")
    if nestedStatus = "succeeded" ∨ nestedStatus = "succeed" then
      { newStatus := .completed
        resultUrl :=
          match d.output.bind (·.results) with
          | some rs => jsOrO (rs.head?.bind (·.url)) (rs.head?.bind (·.orig_url))
          | none => none }
    else if nestedStatus = "failed" then
      { newStatus := .failed
        error := some (jsOrStr (d.output.bind (·.message)) genFailMsg) }
    else
      { newStatus := .processing }

/-- The end-to-end success body of the spec's first scenario. -/
def bodySucceededImages : PollData :=
  { status := some "succeeded", output_images := some ["https://x/img.png"] }

/-- The body of the spec's nsfw scenario, exactly as the spec writes it:
`task_status` at the TOP level, `message` nested under `output`. -/
def bodyNsfwTopLevel : PollData :=
  { task_status := some "FAILED", output := some { message := some "nsfw" } }

/-- The nested variant of the nsfw body, with `task_status` inside
`output`. -/
def bodyNsfwNested : PollData :=
  { output := some { task_status := some "FAILED", message := some "nsfw" } }

/-- Outcome of one HTTP GET against the task-status endpoint: either the
transport throws, or a response with an `ok` flag, status code and parsed
body arrives. -/
inductive FetchResult where
  | transportError (msg : String)
  | response (ok : Bool) (httpStatus : Nat) (body : PollData)

/-- Result of running a piece of the engine: the new task list, the
`(remoteJobId, internalId)` pairs of the status GET requests issued, and
the successive task-list snapshots written to the persistent store. -/
structure StepOut where
  tasks : List ImageGenTask
  requests : List (String × String) := []
  writes : List (List ImageGenTask) := []
deriving Repr, DecidableEq

/-- The per-task update `pollTaskStatus` applies inside its `setTasks`
call (part_006 lines 281–289): status is replaced, result fields merge via
`resultUrl || t.resultImageUrl` / `resultBase64 || t.resultImageBase64`,
and `error` is cleared on `completed`, else merged via `error || t.error`. -/
def pollUpdateTask (u : NormUpdate) (tNow : Int) (t : ImageGenTask) : ImageGenTask :=
  { t with
    status := u.newStatus
    resultImageUrl := jsOrO u.resultUrl t.resultImageUrl
    resultImageBase64 := jsOrO u.resultBase64 t.resultImageBase64
    error := if u.newStatus = .completed then none else jsOrO u.error t.error
    updatedAt := tNow }

/-- `setTasks(prev => prev.map(t => t.id === internalId ? {…update…} : t))`
from part_006's `pollTaskStatus`. -/
def applyPollUpdate (internalId : String) (u : NormUpdate) (tNow : Int)
    (tasks : List ImageGenTask) : List ImageGenTask :=
  tasks.map fun t => if t.id = internalId then pollUpdateTask u tNow t else t

/-- `pollTaskStatus(taskId, internalId)` from part_006 (lines 180–300):
returns early when `apiUrl` or `apiKey` is falsy; otherwise issues one GET;
a transport error or a non-ok response changes nothing; an ok response is
normalized and applied to the matching task, and the updated list is
persisted. -/
def pollTaskStatus (cfg : ImageGenApiConfig) (env : String → FetchResult)
    (taskId internalId : String) (tNow : Int)
    (tasks : List ImageGenTask) : StepOut :=
  if cfg.apiUrl = "" ∨ cfg.apiKey = "" then
    { tasks := tasks }
  else
    match env taskId with
    | .transportError _ => { tasks := tasks, requests := [(taskId, internalId)] }
    | .response ok _ body =>
      if !ok then
        { tasks := tasks, requests := [(taskId, internalId)] }
      else
        let updated := applyPollUpdate internalId (normalizePollData body) tNow tasks
        { tasks := updated, requests := [(taskId, internalId)], writes := [updated] }

/-- The timeout error message of part_006's `pollOnce`. -/
def timeoutMsg : String := "查询超时（5分钟），请手动检查任务状态"

/-- `TIMEOUT_MS = 5 * 60 * 1000` (5 minutes). -/
def TIMEOUT_MS : Int := 5 * 60 * 1000

/-- The `setTasks` update of `pollOnce`'s timeout branch: the task with the
given internal id is forced to `failed` with the timeout message. -/
def applyTimeout (internalId : String) (tNow : Int)
    (tasks : List ImageGenTask) : List ImageGenTask :=
  tasks.map fun task =>
    if task.id = internalId then
      { task with status := .failed, error := some timeoutMsg, updatedAt := tNow }
    else task

/-- The `for (const t of currentProcessing)` loop body of part_006's
`pollOnce` (lines 315–337), run over the snapshot: a task older than the
timeout is failed (and the list persisted) without any network call;
otherwise, if its `taskId` is truthy, `pollTaskStatus` runs on the current
list. -/
def pollLoop (cfg : ImageGenApiConfig) (env : String → FetchResult)
    (now tNow : Int) :
    List ImageGenTask → List ImageGenTask → List (String × String) →
    List (List ImageGenTask) → StepOut
  | [], cur, reqs, ws => { tasks := cur, requests := reqs, writes := ws }
  | t :: rest, cur, reqs, ws =>
    if now - t.createdAt > TIMEOUT_MS then
      let updated := applyTimeout t.id tNow cur
      pollLoop cfg env now tNow rest updated reqs (ws ++ [updated])
    else if t.taskId ≠ "" then
      let s := pollTaskStatus cfg env t.taskId t.id tNow cur
      pollLoop cfg env now tNow rest s.tasks (reqs ++ s.requests) (ws ++ s.writes)
    else
      pollLoop cfg env now tNow rest cur reqs ws

/-- `pollOnce` from part_006 (lines 304–341): skips entirely when a cycle
is already in flight (`isPollingRef.current`), snapshots the `processing`
tasks, returns if none, and otherwise runs the sequential loop. -/
def pollOnce (cfg : ImageGenApiConfig) (env : String → FetchResult)
    (now tNow : Int) (isPolling : Bool)
    (tasks : List ImageGenTask) : StepOut :=
  if isPolling then { tasks := tasks }
  else
    let snapshot := tasks.filter fun t => t.status = .processing
    if snapshot.isEmpty then { tasks := tasks }
    else pollLoop cfg env now tNow snapshot tasks [] []

/-- `refreshTask(task)` from part_006 (lines 377–381): runs
`pollTaskStatus` for the task when its `taskId` is truthy, regardless of
the task's status; otherwise does nothing. -/
def refreshTask (cfg : ImageGenApiConfig) (env : String → FetchResult)
    (task : ImageGenTask) (tNow : Int)
    (tasks : List ImageGenTask) : StepOut :=
  if task.taskId ≠ "" then pollTaskStatus cfg env task.taskId task.id tNow tasks
  else { tasks := tasks }

/-- The per-task apply of the batched revision (part_007 first revision,
lines 260–269 and 317–335 / 375–378): the update object
`{status, resultImageUrl: resultUrl, resultImageBase64: resultBase64, …}`
is merged by object spread `{ ...t, ...updates }`, so each listed key
replaces the task's field even when the update's value is `undefined`. -/
def applyUpdateSpread (u : NormUpdate) (tNow : Int) (t : ImageGenTask) : ImageGenTask :=
  { t with
    status := u.newStatus
    resultImageUrl := u.resultUrl
    resultImageBase64 := u.resultBase64
    error := if u.newStatus = .completed then none else u.error
    updatedAt := tNow }

/-- The submission response body, restricted to the fields `generateImage`
reads, plus `text`: the body's textual form (the raw string when the body
is a plain string, else its JSON serialization), which is what
`typeof data === 'string' ? data : JSON.stringify(data)` produces. -/
structure GenBody where
  task_id : Option String := none
  dataItems : Option (List DataItem) := none
  text : String := ""
deriving Repr, DecidableEq

/-- Outcome of the submission HTTP POST. -/
inductive GenFetch where
  | transportError (msg : String)
  | response (ok : Bool) (httpStatus : Nat) (body : GenBody)

/-- Result of a successful (non-throwing) `generateImage` call: the task
returned to the caller, the new task collection, and the persisted
snapshots. -/
structure GenOut where
  task : ImageGenTask
  tasks : List ImageGenTask
  writes : List (List ImageGenTask) := []
deriving Repr, DecidableEq

/-- `'请先配置 API 地址、密钥和模型名称'`: the configuration error thrown by
`generateImage`. -/
def configErrMsg : String := "请先配置 API 地址、密钥和模型名称"

/-- `'API 返回格式异常'`: the malformed-response error. -/
def malformedMsg : String := "API 返回格式异常"

/-- `'未知错误'`: fallback when a caught error has a falsy message. -/
def unknownErrMsg : String := "未知错误"

/-- The message of the error thrown on a non-ok submission response:
`` `API 请求失败 (${response.status}): ${errorText}` `` with the FULL body
text — the source applies no truncation here. -/
def httpFailMsg (httpStatus : Nat) (text : String) : String :=
  "API 请求失败 (" ++ toString httpStatus ++ "): " ++ text

/-- The fresh `pending` task `generateImage` constructs before issuing the
POST (`newId` is the generated uuid). -/
def baseTask (cfg : ImageGenApiConfig) (newId promptText : String)
    (tNow : Int) : ImageGenTask :=
  { id := newId, taskId := "", prompt := promptText, status := .pending,
    createdAt := tNow, updatedAt := tNow, modelName := cfg.modelName }

/-- The try-block of `generateImage` after the POST returns: classifies
the response outcome; `.error m` models an exception that the catch-block
will capture. -/
def classifyResponse (base : ImageGenTask) (newId : String) (tNow : Int)
    (fetch : GenFetch) : Except String ImageGenTask :=
  match fetch with
  | .transportError m => .error m
  | .response ok httpStatus body =>
    if !ok then .error (httpFailMsg httpStatus body.text)
    else if truthyS body.task_id then
      .ok { base with taskId := body.task_id.getD "", status := .processing,
                      updatedAt := tNow }
    else
      match body.dataItems with
      | some (first :: _) =>
        let tid := jsOrStr first.task_id newId
        if truthyS first.url then
          .ok { base with taskId := tid, resultImageUrl := first.url,
                          status := .completed, updatedAt := tNow }
        else if truthyS first.b64_json then
          let b64 := some ("data:image/png;base64," ++ first.b64_json.getD "")
          .ok { base with taskId := tid, resultImageBase64 := b64,
                          status := .completed, updatedAt := tNow }
        else
          .ok { base with taskId := tid, status := .processing, updatedAt := tNow }
      | _ => .error malformedMsg

/-- `generateImage(prompt)` from part_006 (lines 73–177).  Throws (models
as `Except.error`) exactly when `apiUrl`, `apiKey` or `modelName` is
falsy; otherwise builds a `pending` task, classifies the response, and on
any caught error captures it into a `failed` task.  Either way the task is
prepended to the collection and the collection persisted.  `newId` is the
generated uuid, `tNow` the current time. -/
def generateImage (cfg : ImageGenApiConfig) (newId promptText : String)
    (tNow : Int) (fetch : GenFetch)
    (tasks : List ImageGenTask) : Except String GenOut :=
  if cfg.apiUrl = "" ∨ cfg.apiKey = "" ∨ cfg.modelName = "" then
    .error configErrMsg
  else
    let base := baseTask cfg newId promptText tNow
    match classifyResponse base newId tNow fetch with
    | .ok t =>
      let newTasks := t :: tasks
      .ok { task := t, tasks := newTasks, writes := [newTasks] }
    | .error m =>
      -- catch: `task.status = 'failed'; task.error = error.message || '未知错误'`
      let capturedMsg := if m = "" then unknownErrMsg else m
      let ft := { base with status := .failed, error := some capturedMsg,
                            updatedAt := tNow }
      let newTasks := ft :: tasks
      .ok { task := ft, tasks := newTasks, writes := [newTasks] }

/-- A complete configuration used in concrete runs. -/
def cfgOK : ImageGenApiConfig :=
  { apiUrl := "https://api.example.com", apiKey := "k", modelName := "m",
    enabled := true }

/-- Terminal-success vocabulary named by the spec. -/
def successWords : List String := ["completed", "success", "succeeded", "succeed"]

/-- Terminal-failure vocabulary named by the spec. -/
def failureWords : List String := ["failed", "error"]

/-- Non-terminal vocabulary named by the spec. -/
def pendingWords : List String := ["pending", "processing", "running"]

/-- Status derivation exactly as claim C1 words it: the top-level value
(flat `status`, then flat `task_status`), case-insensitively, against the
three vocabularies; when it matches none of them, the nested
`output.task_status` interpreted WITH THE SAME VOCABULARY. -/
def claimC1Status (d : PollData) : TaskStatus :=
  let top := lowerStr (topStatus d)
  if top ∈ successWords then .completed
  else if top ∈ failureWords then .failed
  else if top ∈ pendingWords then .processing
  else
    let nested := lowerStr (jsOrStr (d.output.bind (·.task_status)) "")
    if nested ∈ successWords then .completed
    else if nested ∈ failureWords then .failed
    else .processing

/-- Status derivation as the code actually behaves (the amended claim):
same top-level vocabulary, but the nested fallback recognizes only
`succeeded`/`succeed` as terminal-success and only `failed` as
terminal-failure; every other nested value (including `completed`,
`success`, `error`) leaves the task non-terminal. -/
def amendedC1Status (d : PollData) : TaskStatus :=
  let top := lowerStr (topStatus d)
  if top ∈ successWords then .completed
  else if top ∈ failureWords then .failed
  else if top ∈ pendingWords then .processing
  else
    let nested := lowerStr (jsOrStr (d.output.bind (·.task_status)) "")
    if nested ∈ (["succeeded", "succeed"] : List String) then .completed
    else if nested = "failed" then .failed
    else .processing

/-- A processing task used in concrete runs. -/
def taskProc : ImageGenTask :=
  { id := "t1", taskId := "abc", prompt := "p", status := .processing,
    createdAt := 0, updatedAt := 0, modelName := "m" }

/-- A completed task that already carries a result URL. -/
def taskWithUrl : ImageGenTask :=
  { id := "t1", taskId := "abc", prompt := "p", status := .completed,
    resultImageUrl := some "https://x/img.png", createdAt := 0, updatedAt := 0,
    modelName := "m" }

/-- The `failed` task a transport error produces on submission. -/
def failedNet : ImageGenTask :=
  { id := "uid-1", taskId := "", prompt := "p", status := .failed,
    error := some "network down", createdAt := 0, updatedAt := 0,
    modelName := "m" }

/-- The immediate-result response body used in concrete runs. -/
def syncBody : GenBody := { dataItems := some [{ url := some "https://x/img.png" }] }

/-- The completed task an immediate-URL submission produces. -/
def completedSync : ImageGenTask :=
  { id := "uid-1", taskId := "uid-1", prompt := "p", status := .completed,
    resultImageUrl := some "https://x/img.png", createdAt := 0, updatedAt := 0,
    modelName := "m" }

/-- The submission result around `completedSync`. -/
def syncOut : GenOut :=
  { task := completedSync, tasks := [completedSync], writes := [[completedSync]] }

/-- An immediate-result response body carrying only inline base64 data. -/
def syncB64Body : GenBody := { dataItems := some [{ b64_json := some "QUJD" }] }

/-- The completed task a base64-only immediate result produces. -/
def completedB64 : ImageGenTask :=
  { id := "uid-1", taskId := "uid-1", prompt := "p", status := .completed,
    resultImageBase64 := some "data:image/png;base64,QUJD", createdAt := 0,
    updatedAt := 0, modelName := "m" }

/-- The submission result around `completedB64`. -/
def b64Out : GenOut :=
  { task := completedB64, tasks := [completedB64], writes := [[completedB64]] }

/-- A 250-character response body. -/
def longBody : String := String.mk (List.replicate 250 'a')

/-- The `failed` task a 400 response with `longBody` produces. -/
def failedLong : ImageGenTask :=
  { id := "uid-1", taskId := "", prompt := "p", status := .failed,
    error := some (httpFailMsg 400 longBody), createdAt := 0, updatedAt := 0,
    modelName := "m" }

/-- A snapshot member is network-polled by the cycle iff it has not timed
out and has a truthy `taskId` (the cycle's eligibility test). -/
def eligibleNow (now : Int) (t : ImageGenTask) : Bool :=
  !decide (now - t.createdAt > TIMEOUT_MS) && decide (t.taskId ≠ "")

/-- A `processing` task submitted at time 0, examined ten minutes later. -/
def taskLate : ImageGenTask :=
  { id := "t1", taskId := "abc", prompt := "p", status := .processing,
    createdAt := 0, updatedAt := 0, modelName := "m" }

/-- A `failed` task that still carries a remote job id. -/
def taskFailed : ImageGenTask :=
  { id := "t2", taskId := "xyz", prompt := "p", status := .failed,
    createdAt := 0, updatedAt := 0, modelName := "m" }

/-! ## Sanity checks and claim theorems -/

example : lowerStr "FAILED" = "failed" := by decide

example : lowerStr "Running" = "running" := by decide

example : jsOrStr (some "") "x" = "x" := by decide

example : jsOrO (some "") (some "keep") = some "keep" := by decide

example : jsOrO none none = none := by decide

example :
    normalizePollData bodySucceededImages =
      { newStatus := .completed, resultUrl := some "https://x/img.png" } := by
  decide

example :
    normalizePollData { status := some "RUNNING" } = { newStatus := .processing } := by
  decide

example :
    normalizePollData bodyNsfwNested =
      { newStatus := .failed, error := some "nsfw" } := by
  decide

example :
    generateImage cfgOK "uid-1" "a red fox" 0
      (.response true 200 { task_id := some "abc" }) [] =
    .ok { task := { id := "uid-1", taskId := "abc", prompt := "a red fox",
                    status := .processing, createdAt := 0, updatedAt := 0,
                    modelName := "m" },
          tasks := [{ id := "uid-1", taskId := "abc", prompt := "a red fox",
                      status := .processing, createdAt := 0, updatedAt := 0,
                      modelName := "m" }],
          writes := [[{ id := "uid-1", taskId := "abc", prompt := "a red fox",
                        status := .processing, createdAt := 0, updatedAt := 0,
                        modelName := "m" }]] } := by
  rfl

example :
    generateImage { apiUrl := "", apiKey := "k", modelName := "m" }
      "uid-1" "p" 0 (.response true 200 { task_id := some "abc" }) [] =
    .error configErrMsg := by rfl

/-- Counterexample to C1: on the body `{output: {task_status: "error"}}`
the claim's "same vocabulary" fallback yields terminal-failure, but the
normalizer leaves the task non-terminal (`processing`). -/
theorem claimC1_nested_vocab_counterexample :
    claimC1Status { output := some { task_status := some "error" } } = .failed ∧
    (normalizePollData { output := some { task_status := some "error" } }).newStatus =
      .processing := by
  decide

/-- C1 (amended): the normalizer's derived status agrees, on every
response body, with the claimed derivation once the nested fallback's
vocabulary is restricted to `succeeded`/`succeed` (success) and `failed`
(failure). -/
theorem normalize_status_amended (d : PollData) :
    (normalizePollData d).newStatus = amendedC1Status d := by
  unfold normalizePollData amendedC1Status successWords failureWords pendingWords
  simp only [List.mem_cons, List.mem_singleton, List.not_mem_nil, or_false]
  split_ifs <;> rfl

/-- Counterexample to C7: polling `{task_status: "FAILED", output:
{message: "nsfw"}}` does fail the task, but — because the recognized
top-level `FAILED` branch reads `data.error?.message || data.message`,
never `output.message` — the stored error is the generic `'生成失败'`,
not `"nsfw"`. -/
theorem nsfw_topLevel_counterexample :
    (pollTaskStatus cfgOK (fun _ => .response true 200 bodyNsfwTopLevel)
        "abc" "t1" 1 [taskProc]).tasks =
      [{ taskProc with status := .failed, error := some genFailMsg, updatedAt := 1 }] ∧
    genFailMsg ≠ "nsfw" := by
  decide

/-- C7 (amended): on the claim's body the task transitions to `failed`
with the generic message `'生成失败'`; the error `"nsfw"` is produced by
the nested body `{output: {task_status: "FAILED", message: "nsfw"}}`,
where the unknown top-level status falls back to `output.task_status` and
the error is read from `output.message`. -/
theorem nsfw_failure_messages :
    (pollTaskStatus cfgOK (fun _ => .response true 200 bodyNsfwTopLevel)
        "abc" "t1" 1 [taskProc]).tasks =
      [{ taskProc with status := .failed, error := some genFailMsg, updatedAt := 1 }] ∧
    (pollTaskStatus cfgOK (fun _ => .response true 200 bodyNsfwNested)
        "abc" "t1" 1 [taskProc]).tasks =
      [{ taskProc with status := .failed, error := some "nsfw", updatedAt := 1 }] := by
  decide

/-- Counterexample to C6: in the batched revision (part_007), the update
object is merged by object spread, so a poll response that yields no
result URL (here `{status: "running"}`) overwrites — i.e. clears — a
previously set `resultImageUrl`. -/
theorem spread_apply_clears_url :
    truthyS taskWithUrl.resultImageUrl = true ∧
    (normalizePollData { status := some "running" }).resultUrl = none ∧
    (applyUpdateSpread (normalizePollData { status := some "running" }) 1
        taskWithUrl).resultImageUrl = none := by
  decide

/-- C6 (amended): in the per-task update path (part_006's
`pollTaskStatus`), the merge is last-non-null-wins: an update with no
value for a result field keeps the task's previous value, and a value for
one field never clears the other; a truthy update value does land. -/
theorem pollUpdate_merge_policy (u : NormUpdate) (tNow : Int) (t : ImageGenTask) :
    (truthyS u.resultUrl = false →
      (pollUpdateTask u tNow t).resultImageUrl = t.resultImageUrl) ∧
    (truthyS u.resultBase64 = false →
      (pollUpdateTask u tNow t).resultImageBase64 = t.resultImageBase64) ∧
    (truthyS u.resultUrl = true →
      (pollUpdateTask u tNow t).resultImageUrl = u.resultUrl) ∧
    (truthyS u.resultBase64 = true →
      (pollUpdateTask u tNow t).resultImageBase64 = u.resultBase64) := by
  refine ⟨fun h => ?_, fun h => ?_, fun h => ?_, fun h => ?_⟩ <;>
    simp [pollUpdateTask, jsOrO, h]

/-- Witness for `pollUpdate_merge_policy`: a no-result update applied to a
task carrying a URL leaves the URL in place. -/
theorem pollUpdate_merge_policy_witness :
    truthyS (NormUpdate.mk .processing none none none).resultUrl = false ∧
    (pollUpdateTask { newStatus := .processing } 1 taskWithUrl).resultImageUrl =
      taskWithUrl.resultImageUrl :=
  ⟨by decide, (pollUpdate_merge_policy { newStatus := .processing } 1 taskWithUrl).1
    (by decide)⟩

/-- C10: manual refresh is a no-op when the task has no remote job id or
the configuration lacks `apiUrl`/`apiKey`: no GET is issued, the task
collection is unchanged, and nothing is written to the store. -/
theorem refresh_noop_when_precondition_unmet (cfg : ImageGenApiConfig)
    (env : String → FetchResult) (task : ImageGenTask) (tNow : Int)
    (tasks : List ImageGenTask)
    (h : task.taskId = "" ∨ cfg.apiUrl = "" ∨ cfg.apiKey = "") :
    refreshTask cfg env task tNow tasks = { tasks := tasks } := by
  rcases h with h | h | h
  · unfold refreshTask
    rw [if_neg (by simp [h])]
  · unfold refreshTask pollTaskStatus
    split
    · rw [if_pos (Or.inl h)]
    · rfl
  · unfold refreshTask pollTaskStatus
    split
    · rw [if_pos (Or.inr h)]
    · rfl

/-- Witness for `refresh_noop_when_precondition_unmet`: a task with an
empty `taskId` is left alone. -/
theorem refresh_noop_witness :
    ({ taskProc with taskId := "" } : ImageGenTask).taskId = "" ∧
    refreshTask cfgOK (fun _ => .transportError "down")
        { taskProc with taskId := "" } 1 [{ taskProc with taskId := "" }] =
      { tasks := [{ taskProc with taskId := "" }] } :=
  ⟨by decide,
    refresh_noop_when_precondition_unmet cfgOK (fun _ => .transportError "down")
      { taskProc with taskId := "" } 1 [{ taskProc with taskId := "" }]
      (Or.inl (by decide))⟩

/-- A truthy optional string read with `getD ""` is non-empty. -/
theorem truthyS_getD_ne {o : Option String} (h : truthyS o = true) : o.getD "" ≠ "" := by
  cases o <;> simp_all [truthyS]

/-- `a || b` with a non-empty fallback is non-empty. -/
theorem jsOrStr_ne {a : Option String} {b : String} (hb : b ≠ "") : jsOrStr a b ≠ "" := by
  cases a with
  | none => simpa [jsOrStr] using hb
  | some s =>
    by_cases hs : s = "" <;> simp [jsOrStr, hs, hb]

/-- The non-ok submission error message is never the empty string. -/
theorem httpFailMsg_ne (st : Nat) (s : String) : httpFailMsg st s ≠ "" := by
  intro h
  have hlen : (httpFailMsg st s).length = 0 := by rw [h]; rfl
  rw [httpFailMsg, String.length_append, String.length_append] at hlen
  have hp : ("): " : String).length = 3 := by decide
  omega

/-- `classifyResponse` on a transport error is that error. -/
theorem classify_transport (base : ImageGenTask) (newId : String) (tNow : Int)
    (m : String) :
    classifyResponse base newId tNow (.transportError m) = .error m := rfl

/-- `classifyResponse` on a non-ok response throws the status-and-body
message. -/
theorem classify_nonOk (base : ImageGenTask) (newId : String) (tNow : Int)
    (st : Nat) (b : GenBody) :
    classifyResponse base newId tNow (.response false st b) =
      .error (httpFailMsg st b.text) := rfl

/-- `classifyResponse` on an ok response with no `task_id` and no usable
`data` array throws the malformed-response message. -/
theorem classify_malformed (base : ImageGenTask) (newId : String) (tNow : Int)
    (st : Nat) (b : GenBody) (h1 : truthyS b.task_id = false)
    (h2 : lenPos b.dataItems = false) :
    classifyResponse base newId tNow (.response true st b) = .error malformedMsg := by
  rcases hitems : b.dataItems with _ | ⟨_ | ⟨first, rest⟩⟩
  · simp [classifyResponse, h1, hitems]
  · simp [classifyResponse, h1, hitems]
  · rw [hitems] at h2; simp [lenPos] at h2

/-- Every task `classifyResponse` accepts has a non-empty `taskId`
(provided the locally generated id is non-empty) and a status of
`processing` or `completed`. -/
theorem classify_ok_inv (base : ImageGenTask) (newId : String) (tNow : Int)
    (fetch : GenFetch) (t : ImageGenTask) (hId : newId ≠ "")
    (hok : classifyResponse base newId tNow fetch = .ok t) :
    t.taskId ≠ "" ∧ (t.status = .processing ∨ t.status = .completed) := by
  unfold classifyResponse at hok
  split at hok
  · cases hok
  · split at hok
    · cases hok
    · split at hok
      · cases hok
        rename_i htid
        exact ⟨truthyS_getD_ne htid, Or.inl rfl⟩
      · split at hok
        · split at hok
          · cases hok
            exact ⟨jsOrStr_ne hId, Or.inr rfl⟩
          · split at hok
            · cases hok
              exact ⟨jsOrStr_ne hId, Or.inr rfl⟩
            · cases hok
              exact ⟨jsOrStr_ne hId, Or.inl rfl⟩
        · cases hok

/-- C3: `generateImage` rejects exactly when the configuration is
incomplete — and then no task is constructed, added or persisted (the
rejection carries nothing); for every complete configuration the
operation returns normally: the task is prepended to the collection, the
collection is persisted once, and a transport error, a non-2xx response,
or a malformed success body is captured as a `failed` task holding the
message. -/
theorem generateImage_error_boundary (cfg : ImageGenApiConfig)
    (newId promptText : String) (tNow : Int) (fetch : GenFetch)
    (tasks : List ImageGenTask) :
    ((cfg.apiUrl = "" ∨ cfg.apiKey = "" ∨ cfg.modelName = "") →
        generateImage cfg newId promptText tNow fetch tasks = .error configErrMsg) ∧
    (¬(cfg.apiUrl = "" ∨ cfg.apiKey = "" ∨ cfg.modelName = "") →
      ∃ out : GenOut,
        generateImage cfg newId promptText tNow fetch tasks = .ok out ∧
        out.tasks = out.task :: tasks ∧
        out.writes = [out.task :: tasks] ∧
        (∀ m, fetch = .transportError m →
          out.task.status = .failed ∧
          out.task.error = some (if m = "" then unknownErrMsg else m)) ∧
        (∀ st b, fetch = .response false st b →
          out.task.status = .failed ∧
          out.task.error = some (httpFailMsg st b.text)) ∧
        (∀ st b, fetch = .response true st b → truthyS b.task_id = false →
          lenPos b.dataItems = false →
          out.task.status = .failed ∧ out.task.error = some malformedMsg)) := by
  constructor
  · intro h
    unfold generateImage
    rw [if_pos h]
  · intro h
    unfold generateImage
    rw [if_neg h]
    dsimp only
    cases hA : classifyResponse (baseTask cfg newId promptText tNow) newId tNow fetch with
    | ok t =>
      dsimp only
      refine ⟨_, rfl, rfl, rfl, ?_, ?_, ?_⟩
      · intro m hm
        rw [hm, classify_transport] at hA
        cases hA
      · intro st b hb
        rw [hb, classify_nonOk] at hA
        cases hA
      · intro st b hb h1 h2
        rw [hb, classify_malformed _ _ _ _ _ h1 h2] at hA
        cases hA
    | error m =>
      dsimp only
      refine ⟨_, rfl, rfl, rfl, ?_, ?_, ?_⟩
      · intro m' hm
        rw [hm, classify_transport] at hA
        cases hA
        exact ⟨rfl, rfl⟩
      · intro st b hb
        rw [hb, classify_nonOk] at hA
        cases hA
        refine ⟨rfl, ?_⟩
        show some (if httpFailMsg st b.text = "" then unknownErrMsg else httpFailMsg st b.text) = _
        rw [if_neg (httpFailMsg_ne st b.text)]
      · intro st b hb h1 h2
        rw [hb, classify_malformed _ _ _ _ _ h1 h2] at hA
        cases hA
        refine ⟨rfl, ?_⟩
        show some (if malformedMsg = "" then unknownErrMsg else malformedMsg) = _
        rw [if_neg (by decide)]

/-- Witness for `generateImage_error_boundary`: with a complete config, a
transport error is captured as a returned, collected, persisted `failed`
task with the transport message. -/
theorem generateImage_error_boundary_witness :
    ¬(cfgOK.apiUrl = "" ∨ cfgOK.apiKey = "" ∨ cfgOK.modelName = "") ∧
    ∃ out : GenOut,
      generateImage cfgOK "uid-1" "p" 0 (.transportError "network down") [] = .ok out ∧
      out.tasks = out.task :: [] ∧
      out.writes = [out.task :: []] ∧
      (∀ m, GenFetch.transportError "network down" = .transportError m →
        out.task.status = .failed ∧
        out.task.error = some (if m = "" then unknownErrMsg else m)) ∧
      (∀ st b, GenFetch.transportError "network down" = .response false st b →
        out.task.status = .failed ∧ out.task.error = some (httpFailMsg st b.text)) ∧
      (∀ st b, GenFetch.transportError "network down" = .response true st b →
        truthyS b.task_id = false → lenPos b.dataItems = false →
        out.task.status = .failed ∧ out.task.error = some malformedMsg) :=
  ⟨by decide,
    (generateImage_error_boundary cfgOK "uid-1" "p" 0 (.transportError "network down")
        []).2 (by decide)⟩

/-- `classifyResponse` on an ok response whose first data item carries a
URL: the task completes with that URL and
`taskId = data[0].task_id || newId`. -/
theorem classify_url (base : ImageGenTask) (newId : String) (tNow : Int)
    (st : Nat) (b : GenBody) (first : DataItem) (rest : List DataItem)
    (htid : truthyS b.task_id = false)
    (hitems : b.dataItems = some (first :: rest))
    (hurl : truthyS first.url = true) :
    classifyResponse base newId tNow (.response true st b) =
      .ok { base with taskId := jsOrStr first.task_id newId,
                      resultImageUrl := first.url, status := .completed,
                      updatedAt := tNow } := by
  simp [classifyResponse, htid, hitems, hurl]

/-- `classifyResponse` on an ok response whose first data item carries no
URL but inline base64 data: the task completes with the data-URI payload
and `taskId = data[0].task_id || newId` (part_006 lines 149–151). -/
theorem classify_b64 (base : ImageGenTask) (newId : String) (tNow : Int)
    (st : Nat) (b : GenBody) (first : DataItem) (rest : List DataItem)
    (htid : truthyS b.task_id = false)
    (hitems : b.dataItems = some (first :: rest))
    (hnourl : truthyS first.url = false)
    (hb64 : truthyS first.b64_json = true) :
    classifyResponse base newId tNow (.response true st b) =
      .ok { base with taskId := jsOrStr first.task_id newId,
                      resultImageBase64 :=
                        some ("data:image/png;base64," ++ first.b64_json.getD ""),
                      status := .completed, updatedAt := tNow } := by
  simp [classifyResponse, htid, hitems, hnourl, hb64]

/-- Counterexample to C5: a submission whose HTTP call fails on transport
yields a task whose status (`failed`) is no longer `pending` while its
`taskId` is still the empty string. -/
theorem submission_failed_empty_taskId_counterexample :
    generateImage cfgOK "uid-1" "p" 0 (.transportError "network down") [] =
      .ok { task := failedNet, tasks := [failedNet], writes := [[failedNet]] } ∧
    failedNet.status ≠ .pending ∧ failedNet.taskId = "" :=
  ⟨rfl, by decide, rfl⟩

/-- C5 (amended): for every task produced by submission, once its status
is `processing` or `completed` its `taskId` is non-empty (tasks failed at
submission may keep an empty `taskId`); in particular, an immediate
result — a direct URL in the first data item, or, failing that, inline
base64 image data — completes the task with `taskId` from the result's
own identifier when truthy, else the task's local id. -/
theorem submitted_task_remoteJobId (cfg : ImageGenApiConfig)
    (newId promptText : String) (tNow : Int) (fetch : GenFetch)
    (tasks : List ImageGenTask) (out : GenOut) (hId : newId ≠ "")
    (hout : generateImage cfg newId promptText tNow fetch tasks = .ok out) :
    ((out.task.status = .processing ∨ out.task.status = .completed) →
      out.task.taskId ≠ "") ∧
    (∀ st b first rest, fetch = .response true st b →
      truthyS b.task_id = false → b.dataItems = some (first :: rest) →
      truthyS first.url = true →
      out.task.status = .completed ∧
      out.task.taskId = jsOrStr first.task_id newId ∧
      out.task.resultImageUrl = first.url) ∧
    (∀ st b first rest, fetch = .response true st b →
      truthyS b.task_id = false → b.dataItems = some (first :: rest) →
      truthyS first.url = false → truthyS first.b64_json = true →
      out.task.status = .completed ∧
      out.task.taskId = jsOrStr first.task_id newId ∧
      out.task.resultImageBase64 =
        some ("data:image/png;base64," ++ first.b64_json.getD "")) := by
  unfold generateImage at hout
  split at hout
  · cases hout
  · dsimp only at hout
    cases hA : classifyResponse (baseTask cfg newId promptText tNow) newId tNow fetch with
    | ok t =>
      rw [hA] at hout
      dsimp only at hout
      cases hout
      refine ⟨?_, ?_, ?_⟩
      · intro _
        exact (classify_ok_inv _ _ _ _ _ hId hA).1
      · intro st b first rest hb htid hitems hurl
        subst hb
        rw [classify_url _ _ _ _ _ _ _ htid hitems hurl] at hA
        injection hA with h3
        subst h3
        exact ⟨rfl, rfl, rfl⟩
      · intro st b first rest hb htid hitems hnourl hb64
        subst hb
        rw [classify_b64 _ _ _ _ _ _ _ htid hitems hnourl hb64] at hA
        injection hA with h3
        subst h3
        exact ⟨rfl, rfl, rfl⟩
    | error m =>
      rw [hA] at hout
      dsimp only at hout
      cases hout
      refine ⟨?_, ?_, ?_⟩
      · intro hst
        rcases hst with h | h <;> simp at h
      · intro st b first rest hb htid hitems hurl
        subst hb
        rw [classify_url _ _ _ _ _ _ _ htid hitems hurl] at hA
        cases hA
      · intro st b first rest hb htid hitems hnourl hb64
        subst hb
        rw [classify_b64 _ _ _ _ _ _ _ htid hitems hnourl hb64] at hA
        cases hA

/-- Witness for `submitted_task_remoteJobId`: a synchronous base64-only
result completes the task with the data-URI payload and the local id as
`taskId` (the item carries no `task_id` and no URL). -/
theorem submitted_task_remoteJobId_witness :
    ("uid-1" : String) ≠ "" ∧
    generateImage cfgOK "uid-1" "p" 0 (.response true 200 syncB64Body) [] = .ok b64Out ∧
    (((b64Out.task.status = .processing ∨ b64Out.task.status = .completed) →
        b64Out.task.taskId ≠ "") ∧
      (∀ st b first rest, GenFetch.response true 200 syncB64Body = .response true st b →
        truthyS b.task_id = false → b.dataItems = some (first :: rest) →
        truthyS first.url = true →
        b64Out.task.status = .completed ∧
        b64Out.task.taskId = jsOrStr first.task_id "uid-1" ∧
        b64Out.task.resultImageUrl = first.url) ∧
      (∀ st b first rest, GenFetch.response true 200 syncB64Body = .response true st b →
        truthyS b.task_id = false → b.dataItems = some (first :: rest) →
        truthyS first.url = false → truthyS first.b64_json = true →
        b64Out.task.status = .completed ∧
        b64Out.task.taskId = jsOrStr first.task_id "uid-1" ∧
        b64Out.task.resultImageBase64 =
          some ("data:image/png;base64," ++ first.b64_json.getD ""))) :=
  ⟨by decide, rfl,
    submitted_task_remoteJobId cfgOK "uid-1" "p" 0 (.response true 200 syncB64Body)
      [] b64Out (by decide) rfl⟩

/-- C8 (amended): a non-2xx submission response fails the task with the
response status and the FULL response body text (no truncation); a
transport error fails it with the transport error text. -/
theorem submission_failure_message (cfg : ImageGenApiConfig)
    (newId promptText : String) (tNow : Int) (tasks : List ImageGenTask)
    (hc : ¬(cfg.apiUrl = "" ∨ cfg.apiKey = "" ∨ cfg.modelName = "")) :
    (∀ st b, ∃ out : GenOut,
      generateImage cfg newId promptText tNow (.response false st b) tasks = .ok out ∧
      out.task.status = .failed ∧
      out.task.error = some (httpFailMsg st b.text) ∧
      httpFailMsg st b.text = "API 请求失败 (" ++ toString st ++ "): " ++ b.text) ∧
    (∀ m, m ≠ "" → ∃ out : GenOut,
      generateImage cfg newId promptText tNow (.transportError m) tasks = .ok out ∧
      out.task.status = .failed ∧ out.task.error = some m) := by
  constructor
  · intro st b
    unfold generateImage
    rw [if_neg hc]
    dsimp only
    rw [classify_nonOk]
    dsimp only
    refine ⟨_, rfl, rfl, ?_, rfl⟩
    show some (if httpFailMsg st b.text = "" then unknownErrMsg else httpFailMsg st b.text) = _
    rw [if_neg (httpFailMsg_ne st b.text)]
  · intro m hm
    unfold generateImage
    rw [if_neg hc]
    dsimp only
    rw [classify_transport]
    dsimp only
    refine ⟨_, rfl, rfl, ?_⟩
    show some (if m = "" then unknownErrMsg else m) = _
    rw [if_neg hm]

/-- Witness for `submission_failure_message`: a transport error on a
complete configuration is captured verbatim. -/
theorem submission_failure_message_witness :
    ¬(cfgOK.apiUrl = "" ∨ cfgOK.apiKey = "" ∨ cfgOK.modelName = "") ∧
    (∀ m, m ≠ "" → ∃ out : GenOut,
      generateImage cfgOK "uid-1" "p" 0 (.transportError m) [] = .ok out ∧
      out.task.status = .failed ∧ out.task.error = some m) :=
  ⟨by decide, (submission_failure_message cfgOK "uid-1" "p" 0 [] (by decide)).2⟩

set_option maxRecDepth 4000 in
/-- Counterexample to C8: the stored error message embeds the ENTIRE
250-character body — nothing limits it to 200 characters. -/
theorem submission_no_truncation_counterexample :
    generateImage cfgOK "uid-1" "p" 0 (.response false 400 { text := longBody }) [] =
      .ok { task := failedLong, tasks := [failedLong], writes := [[failedLong]] } ∧
    failedLong.error = some ("API 请求失败 (400): " ++ longBody) ∧
    200 < longBody.length := by
  refine ⟨rfl, rfl, ?_⟩
  decide

/-- Every request `pollTaskStatus` issues is the single GET for its own
`(taskId, internalId)` pair. -/
theorem pollTaskStatus_req (cfg : ImageGenApiConfig) (env : String → FetchResult)
    (tid iid : String) (tNow : Int) (cur : List ImageGenTask) :
    ∀ r ∈ (pollTaskStatus cfg env tid iid tNow cur).requests, r = (tid, iid) := by
  intro r hr
  unfold pollTaskStatus at hr
  split at hr
  · simp at hr
  · split at hr
    · simpa using hr
    · split at hr <;> simpa using hr

/-- With a usable configuration, `pollTaskStatus` issues exactly one GET. -/
theorem pollTaskStatus_requests_eq (cfg : ImageGenApiConfig)
    (env : String → FetchResult) (tid iid : String) (tNow : Int)
    (cur : List ImageGenTask) (hc : ¬(cfg.apiUrl = "" ∨ cfg.apiKey = "")) :
    (pollTaskStatus cfg env tid iid tNow cur).requests = [(tid, iid)] := by
  unfold pollTaskStatus
  rw [if_neg hc]
  cases henv : env tid with
  | transportError m => rfl
  | response ok st body => cases ok <;> rfl

/-- `pollTaskStatus` for an internal id other than `i` leaves every
task with id `i` satisfying whatever it satisfied before. -/
theorem pollTaskStatus_pres (cfg : ImageGenApiConfig) (env : String → FetchResult)
    (tid iid : String) (tNow : Int) (cur : List ImageGenTask) {i : String}
    (hne : iid ≠ i) (Q : ImageGenTask → Prop)
    (hcur : ∀ task ∈ cur, task.id = i → Q task) :
    ∀ task ∈ (pollTaskStatus cfg env tid iid tNow cur).tasks,
      task.id = i → Q task := by
  intro task hmem hid
  unfold pollTaskStatus at hmem
  split at hmem
  · exact hcur task hmem hid
  · split at hmem
    · exact hcur task hmem hid
    · split at hmem
      · exact hcur task hmem hid
      · unfold applyPollUpdate at hmem
        rcases List.mem_map.mp hmem with ⟨t0, ht0, heq⟩
        by_cases h0 : t0.id = iid
        · rw [if_pos h0] at heq
          subst heq
          exact absurd (h0.symm.trans hid) hne
        · rw [if_neg h0] at heq
          subst heq
          exact hcur t0 ht0 hid

/-- The timeout write for an id other than `i` preserves facts about the
tasks with id `i`. -/
theorem applyTimeout_pres {j : String} (tNow : Int) (cur : List ImageGenTask)
    {i : String} (hji : j ≠ i) (Q : ImageGenTask → Prop)
    (hcur : ∀ task ∈ cur, task.id = i → Q task) :
    ∀ task ∈ applyTimeout j tNow cur, task.id = i → Q task := by
  intro task hmem hid
  unfold applyTimeout at hmem
  rcases List.mem_map.mp hmem with ⟨t0, ht0, heq⟩
  by_cases h0 : t0.id = j
  · rw [if_pos h0] at heq
    subst heq
    exact absurd (h0.symm.trans hid) hji
  · rw [if_neg h0] at heq
    subst heq
    exact hcur t0 ht0 hid

/-- After the timeout write for id `i`, every task with id `i` is failed
with the timeout message. -/
theorem applyTimeout_establish (i : String) (tNow : Int)
    (cur : List ImageGenTask) :
    ∀ task ∈ applyTimeout i tNow cur, task.id = i →
      task.status = .failed ∧ task.error = some timeoutMsg := by
  intro task hmem hid
  unfold applyTimeout at hmem
  rcases List.mem_map.mp hmem with ⟨t0, ht0, heq⟩
  by_cases h0 : t0.id = i
  · rw [if_pos h0] at heq
    subst heq
    exact ⟨rfl, rfl⟩
  · rw [if_neg h0] at heq
    subst heq
    exact absurd hid h0

/-- The loop preserves facts about tasks whose id occurs nowhere in the
remaining snapshot. -/
theorem pollLoop_pres (cfg : ImageGenApiConfig) (env : String → FetchResult)
    (now tNow : Int) (i : String) (Q : ImageGenTask → Prop) :
    ∀ (l cur : List ImageGenTask) (reqs : List (String × String))
      (ws : List (List ImageGenTask)),
      (∀ t ∈ l, t.id ≠ i) → (∀ task ∈ cur, task.id = i → Q task) →
      ∀ task ∈ (pollLoop cfg env now tNow l cur reqs ws).tasks,
        task.id = i → Q task := by
  intro l
  induction l with
  | nil =>
    intro cur reqs ws _ hcur
    simpa [pollLoop] using hcur
  | cons t rest ih =>
    intro cur reqs ws hl hcur
    have hti : t.id ≠ i := hl t (List.mem_cons_self _ _)
    have hrest : ∀ t' ∈ rest, t'.id ≠ i := fun t' h' => hl t' (List.mem_cons_of_mem _ h')
    simp only [pollLoop]
    split_ifs with h1 h2
    · exact ih _ _ _ hrest (applyTimeout_pres tNow cur hti Q hcur)
    · exact ih _ _ _ hrest (pollTaskStatus_pres cfg env t.taskId t.id tNow cur hti Q hcur)
    · exact ih _ _ _ hrest hcur

/-- Every request the loop issues either was already pending or belongs to
a member of the remaining snapshot. -/
theorem pollLoop_req_src (cfg : ImageGenApiConfig) (env : String → FetchResult)
    (now tNow : Int) :
    ∀ (l cur : List ImageGenTask) (reqs : List (String × String))
      (ws : List (List ImageGenTask)) (r : String × String),
      r ∈ (pollLoop cfg env now tNow l cur reqs ws).requests →
      r ∈ reqs ∨ ∃ t ∈ l, r = (t.taskId, t.id) := by
  intro l
  induction l with
  | nil =>
    intro cur reqs ws r hr
    left
    simpa [pollLoop] using hr
  | cons t rest ih =>
    intro cur reqs ws r hr
    simp only [pollLoop] at hr
    split_ifs at hr with h1 h2
    · rcases ih _ _ _ r hr with h | ⟨t', ht', rfl⟩
      · left; exact h
      · right; exact ⟨t', List.mem_cons_of_mem _ ht', rfl⟩
    · rcases ih _ _ _ r hr with h | ⟨t', ht', rfl⟩
      · rcases List.mem_append.mp h with h' | h'
        · left; exact h'
        · right
          exact ⟨t, List.mem_cons_self _ _, pollTaskStatus_req cfg env t.taskId t.id tNow cur r h'⟩
      · right; exact ⟨t', List.mem_cons_of_mem _ ht', rfl⟩
    · rcases ih _ _ _ r hr with h | ⟨t', ht', rfl⟩
      · left; exact h
      · right; exact ⟨t', List.mem_cons_of_mem _ ht', rfl⟩

/-- Processing the concatenation of two snapshot segments is processing
the first, then the second from the resulting state. -/
theorem pollLoop_append (cfg : ImageGenApiConfig) (env : String → FetchResult)
    (now tNow : Int) :
    ∀ (l1 l2 cur : List ImageGenTask) (reqs : List (String × String))
      (ws : List (List ImageGenTask)),
      pollLoop cfg env now tNow (l1 ++ l2) cur reqs ws =
        pollLoop cfg env now tNow l2
          (pollLoop cfg env now tNow l1 cur reqs ws).tasks
          (pollLoop cfg env now tNow l1 cur reqs ws).requests
          (pollLoop cfg env now tNow l1 cur reqs ws).writes := by
  intro l1
  induction l1 with
  | nil => intro l2 cur reqs ws; rfl
  | cons t rest ih =>
    intro l2 cur reqs ws
    simp only [List.cons_append, pollLoop]
    split_ifs with h1 h2 <;> apply ih

/-- With a usable configuration, the loop issues exactly one request per
eligible snapshot member, in snapshot order. -/
theorem pollLoop_requests_eq (cfg : ImageGenApiConfig) (env : String → FetchResult)
    (now tNow : Int) (hc : ¬(cfg.apiUrl = "" ∨ cfg.apiKey = "")) :
    ∀ (l cur : List ImageGenTask) (reqs : List (String × String))
      (ws : List (List ImageGenTask)),
      (pollLoop cfg env now tNow l cur reqs ws).requests =
        reqs ++ (l.filter (eligibleNow now)).map (fun t => (t.taskId, t.id)) := by
  intro l
  induction l with
  | nil => intro cur reqs ws; simp [pollLoop]
  | cons t rest ih =>
    intro cur reqs ws
    simp only [pollLoop]
    split_ifs with h1 h2
    · rw [ih]
      have he : eligibleNow now t = false := by simp [eligibleNow, h1]
      rw [List.filter_cons, if_neg (by simp [he])]
    · rw [ih, pollTaskStatus_requests_eq cfg env t.taskId t.id tNow cur hc]
      have he : eligibleNow now t = true := by simp [eligibleNow, h1, h2]
      rw [List.filter_cons, if_pos (by simp [he])]
      simp
    · rw [ih]
      have he : eligibleNow now t = false := by
        simp only [Ne, not_not] at h2
        simp [eligibleNow, h2]
      rw [List.filter_cons, if_neg (by simp [he])]

/-- C4: a poll cycle entered while `isPollingRef` is set is a complete
no-op — no task change, no request, no write; and an actually running
cycle with a usable configuration issues exactly one status request per
eligible snapshot task (so the requests of overlapping invocations are
those of exactly one active cycle, never a multiple). -/
theorem pollOnce_mutual_exclusion (cfg : ImageGenApiConfig)
    (env : String → FetchResult) (now tNow : Int) (tasks : List ImageGenTask) :
    pollOnce cfg env now tNow true tasks = { tasks := tasks } ∧
    (¬(cfg.apiUrl = "" ∨ cfg.apiKey = "") →
      (pollOnce cfg env now tNow false tasks).requests =
        ((tasks.filter fun t => t.status = .processing).filter
            (eligibleNow now)).map (fun t => (t.taskId, t.id))) := by
  constructor
  · rfl
  · intro hc
    unfold pollOnce
    rw [if_neg (by simp)]
    dsimp only
    cases hempty : (tasks.filter fun t => t.status = .processing).isEmpty with
    | false =>
      rw [if_neg (by simp)]
      rw [pollLoop_requests_eq cfg env now tNow hc]
      simp
    | true =>
      rw [if_pos rfl]
      have hnil : (tasks.filter fun t => t.status = .processing) = [] :=
        List.isEmpty_iff.mp hempty
      rw [hnil]
      rfl

/-- Witness for `pollOnce_mutual_exclusion`: one processing task, one
request. -/
theorem pollOnce_mutual_exclusion_witness :
    ¬(cfgOK.apiUrl = "" ∨ cfgOK.apiKey = "") ∧
    (pollOnce cfgOK (fun _ => .transportError "down") 1 2 false [taskProc]).requests =
      (([taskProc].filter fun t => t.status = .processing).filter
          (eligibleNow 1)).map (fun t => (t.taskId, t.id)) :=
  ⟨by decide,
    (pollOnce_mutual_exclusion cfgOK (fun _ => .transportError "down") 1 2
        [taskProc]).2 (by decide)⟩

/-- Distinct snapshot segments around `t` carry ids different from
`t.id` when the whole task list has pairwise-distinct ids. -/
theorem segment_ids_ne (t : ImageGenTask) (l1 l2 : List ImageGenTask)
    (hnd : ((l1 ++ t :: l2).map ImageGenTask.id).Nodup) :
    (∀ t' ∈ l1, t'.id ≠ t.id) ∧ (∀ t' ∈ l2, t'.id ≠ t.id) := by
  rw [List.map_append, List.map_cons] at hnd
  rcases List.nodup_append.mp hnd with ⟨_, hn2, hdisj⟩
  constructor
  · intro t' ht' heq
    exact hdisj (List.mem_map.mpr ⟨t', ht', heq⟩) (List.mem_cons_self _ _)
  · intro t' ht' heq
    exact (List.nodup_cons.mp hn2).1 (List.mem_map.mpr ⟨t', ht', heq⟩)

/-- C2: when a cycle actually runs (`isPolling = false`) and examines a
`processing` task whose age exceeds the 5-minute timeout at the cycle's
`now`, that task ends the cycle `failed` with the timeout message, and no
status request of the cycle targets it. -/
theorem pollOnce_timeout_preempts (cfg : ImageGenApiConfig)
    (env : String → FetchResult) (now tNow : Int) (tasks : List ImageGenTask)
    (t : ImageGenTask) (ht : t ∈ tasks) (hp : t.status = .processing)
    (hnodup : (tasks.map ImageGenTask.id).Nodup)
    (hto : now - t.createdAt > TIMEOUT_MS) :
    (∀ task ∈ (pollOnce cfg env now tNow false tasks).tasks, task.id = t.id →
      task.status = .failed ∧ task.error = some timeoutMsg) ∧
    (∀ r ∈ (pollOnce cfg env now tNow false tasks).requests, r.2 ≠ t.id) := by
  have htsnap : t ∈ tasks.filter (fun t => t.status = .processing) :=
    List.mem_filter.mpr ⟨ht, by simp [hp]⟩
  have hne : (tasks.filter (fun t => t.status = .processing)).isEmpty = false := by
    cases hie : (tasks.filter (fun t => t.status = .processing)).isEmpty with
    | false => rfl
    | true =>
      rw [List.isEmpty_iff.mp hie] at htsnap
      exact absurd htsnap (List.not_mem_nil t)
  have hpoll : pollOnce cfg env now tNow false tasks =
      pollLoop cfg env now tNow (tasks.filter (fun t => t.status = .processing))
        tasks [] [] := by
    unfold pollOnce
    rw [if_neg (by simp)]
    dsimp only
    rw [hne]
    rfl
  obtain ⟨l1, l2, hsplit⟩ := List.append_of_mem htsnap
  have hsnapnd : ((tasks.filter (fun t => t.status = .processing)).map
      ImageGenTask.id).Nodup :=
    ((List.filter_sublist tasks).map ImageGenTask.id).nodup hnodup
  rw [hsplit] at hsnapnd
  obtain ⟨hl1, hl2⟩ := segment_ids_ne t l1 l2 hsnapnd
  -- run the loop: the prefix, then t's timeout step, then the suffix
  have hstep : pollLoop cfg env now tNow (l1 ++ t :: l2) tasks [] [] =
      pollLoop cfg env now tNow l2
        (applyTimeout t.id tNow
          (pollLoop cfg env now tNow l1 tasks [] []).tasks)
        (pollLoop cfg env now tNow l1 tasks [] []).requests
        ((pollLoop cfg env now tNow l1 tasks [] []).writes ++
          [applyTimeout t.id tNow
            (pollLoop cfg env now tNow l1 tasks [] []).tasks]) := by
    rw [pollLoop_append]
    simp only [pollLoop]
    rw [if_pos hto]
  rw [hpoll, hsplit, hstep]
  constructor
  · exact pollLoop_pres cfg env now tNow t.id _ l2 _ _ _ hl2
      (applyTimeout_establish t.id tNow _)
  · intro r hr heq
    rcases pollLoop_req_src cfg env now tNow l2 _ _ _ r hr with h | ⟨t', ht', rfl⟩
    · rcases pollLoop_req_src cfg env now tNow l1 _ _ _ r h with h' | ⟨t', ht', rfl⟩
      · exact absurd h' (List.not_mem_nil r)
      · exact hl1 t' ht' heq
    · exact hl2 t' ht' heq

/-- Witness for `pollOnce_timeout_preempts`: a ten-minute-old processing
task fails by timeout and is not requested. -/
theorem pollOnce_timeout_preempts_witness :
    taskLate ∈ [taskLate] ∧ taskLate.status = .processing ∧
    600000 - taskLate.createdAt > TIMEOUT_MS ∧
    ((∀ task ∈ (pollOnce cfgOK (fun _ => .transportError "down") 600000 600001
        false [taskLate]).tasks, task.id = taskLate.id →
        task.status = .failed ∧ task.error = some timeoutMsg) ∧
      (∀ r ∈ (pollOnce cfgOK (fun _ => .transportError "down") 600000 600001
        false [taskLate]).requests, r.2 ≠ taskLate.id)) :=
  ⟨by decide, rfl, by decide,
    pollOnce_timeout_preempts cfgOK (fun _ => .transportError "down") 600000 600001
      [taskLate] taskLate (by decide) rfl (by decide) (by decide)⟩

/-- Counterexample to C9: manual refresh on a task already in the
terminal `failed` state DOES issue a status request (the guard in
`refreshTask` checks only `task.taskId`, and the list UI offers a
re-poll button for failed tasks). -/
theorem refresh_terminal_requests_counterexample :
    taskFailed.status = .failed ∧
    (refreshTask cfgOK (fun _ => .response true 200 { status := some "running" })
        taskFailed 1 [taskFailed]).requests = [("xyz", "t2")] :=
  ⟨rfl, rfl⟩

/-- C9 (amended): no AUTOMATIC poll cycle ever issues a status request for
a task in a terminal state (`completed` or `failed`) — the cycle snapshots
only `processing` tasks; manual refresh, by contrast, polls any task with
a non-empty `taskId` regardless of its state. -/
theorem terminal_not_auto_polled (cfg : ImageGenApiConfig)
    (env : String → FetchResult) (now tNow : Int) (isPolling : Bool)
    (tasks : List ImageGenTask) (t : ImageGenTask) (ht : t ∈ tasks)
    (hterm : t.status = .completed ∨ t.status = .failed)
    (hnodup : (tasks.map ImageGenTask.id).Nodup) :
    ∀ r ∈ (pollOnce cfg env now tNow isPolling tasks).requests, r.2 ≠ t.id := by
  intro r hr heq
  cases isPolling with
  | true => simp [pollOnce] at hr
  | false =>
    unfold pollOnce at hr
    rw [if_neg (by simp)] at hr
    dsimp only at hr
    split at hr
    · simp at hr
    · rcases pollLoop_req_src cfg env now tNow _ _ _ _ r hr with h | ⟨t', ht', rfl⟩
      · exact absurd h (List.not_mem_nil r)
      · obtain ⟨ht'mem, ht'proc⟩ := List.mem_filter.mp ht'
        have heq' : t' = t :=
          List.inj_on_of_nodup_map hnodup ht'mem ht heq
        rw [heq'] at ht'proc
        rcases hterm with h' | h' <;> simp [h'] at ht'proc

/-- Witness for `terminal_not_auto_polled`: with one processing and one
failed task, the cycle's requests never carry the failed task's id. -/
theorem terminal_not_auto_polled_witness :
    taskFailed ∈ [taskProc, taskFailed] ∧
    (taskFailed.status = .completed ∨ taskFailed.status = .failed) ∧
    (∀ r ∈ (pollOnce cfgOK (fun _ => .response true 200 { status := some "running" })
        1 2 false [taskProc, taskFailed]).requests, r.2 ≠ taskFailed.id) :=
  ⟨by decide, Or.inr rfl,
    terminal_not_auto_polled cfgOK
      (fun _ => .response true 200 { status := some "running" }) 1 2 false
      [taskProc, taskFailed] taskFailed (by decide) (Or.inr rfl) (by decide)⟩
